import Mathlib

/-!
# Verification of the SENECA multi-class Dice evaluator

A shallow embedding of `src/masks_evaluation.py` (functions
`prepare_prediction`, `dice_single`, `dice_total`, `evaluate_results`),
with theorems settling the specification's claims about it.

Modelling conventions:
* A tensor of shape (H, W, 6) is a function `Fin H → Fin W → Fin 6 → ℚ`;
  numpy float arithmetic is idealised as exact rational arithmetic.
* The integer class mask produced by `np.argmax(...).astype('uint8')` is a
  `Nat`-valued grid.
* The process-wide accumulators `n_liver`, ..., `n_bones` are an `Accum`
  record threaded explicitly through the functions that mutate them.
* An IEEE non-finite value (NaN or ±Inf), which in the Python code arises
  exactly from a division whose denominator is zero (including `np.mean` /
  `np.std` of an empty list), is modelled as `none : Option ℚ`;
  a finite value `q` is `some q`.
* `np.std` takes a real square root; it is modelled by `sqrtQ`, a rational
  square-root function that agrees with the real square root on
  perfect-square rationals (every standard deviation evaluated concretely
  in this file has a perfect-square variance).
* A Python `IndexError` escaping `evaluate_results` is modelled by
  `Except.error`, carrying the accumulator state at the moment of the
  error (in Python the mutated globals survive the exception).
-/

namespace Seneca

/-- A (H, W, 6) channel tensor: predictions and one-hot ground truths. -/
def Tensor (H W : Nat) : Type := Fin H → Fin W → Fin 6 → ℚ

/-- A per-pixel integer class mask (the uint8 array in the source). -/
def Mask (H W : Nat) : Type := Fin H → Fin W → Nat

/-- One step of `np.argmax`'s left-to-right scan: keep the current best
index `b` unless channel `j` is strictly greater. -/
def amStep (v : Fin 6 → ℚ) (b j : Fin 6) : Fin 6 :=
  if v b < v j then j else b

/-- `np.argmax` over the 6 channels of one pixel: the first (lowest) index
attaining the maximum value. -/
def argmax6 (v : Fin 6 → ℚ) : Fin 6 :=
  (List.finRange 6).foldl (amStep v) 0

/-- `prepare_prediction`: per-pixel argmax over the channel axis, cast to
uint8 (modelled as `Nat`; the values are below 6, hence in uint8 range). -/
def prepare_prediction {H W : Nat} (pred : Tensor H W) : Mask H W :=
  fun i j => (argmax6 (pred i j)).val

/-- `dice_single(pred, true)`: `(2*sum(pred*true) + 1) / (sum(pred+true) + 1)`. -/
def dice_single {H W : Nat} (p t : Fin H → Fin W → ℚ) : ℚ :=
  let intersection : ℚ := ∑ i, ∑ j, p i j * t i j
  let union : ℚ := ∑ i, ∑ j, (p i j + t i j)
  (2 * intersection + 1) / (union + 1)

/-- The boolean array `mask == k`, as a 0/1 rational grid. -/
def maskEq {H W : Nat} (m : Mask H W) (k : Nat) : Fin H → Fin W → ℚ :=
  fun i j => if m i j = k then 1 else 0

/-- Channel `k` of a tensor, `t[:, :, k]`. -/
def chan {H W : Nat} (t : Tensor H W) (k : Fin 6) : Fin H → Fin W → ℚ :=
  fun i j => t i j k

/-- `np.sum(t[:, :, k])`: the pixel weight of class `k` in tensor `t`. -/
def chanSum {H W : Nat} (t : Tensor H W) (k : Fin 6) : ℚ :=
  ∑ i, ∑ j, t i j k

/-- The process-wide organ-pixel-weight accumulators
(`n_liver`, `n_bladder`, `n_lungs`, `n_kidneys`, `n_bones`). -/
structure Accum where
  n_liver : ℚ
  n_bladder : ℚ
  n_lungs : ℚ
  n_kidneys : ℚ
  n_bones : ℚ
  deriving DecidableEq

/-- The initial (process start) accumulator state: all five counters 0. -/
def Accum.zero : Accum := ⟨0, 0, 0, 0, 0⟩

/-- The tuple returned by `dice_total`: the per-sample weighted Dice and
the five `dice_i * weight_i` products. -/
structure DiceTotalResult where
  aggregate : ℚ
  liver : ℚ
  bladder : ℚ
  lungs : ℚ
  kidneys : ℚ
  bones : ℚ
  deriving DecidableEq

/-- `dice_total(pred, true)`: per-class Dice scores and ground-truth pixel
weights, the weighted aggregate over the five organ classes, the five
`dice_i * weight_i` products, and the accumulator update. Transcribed
statement by statement from the source (the background Dice and weight are
computed but unused, as in the source). -/
def dice_total {H W : Nat} (pred : Mask H W) (t : Tensor H W) (st : Accum) :
    DiceTotalResult × Accum :=
  let dice_background := dice_single (maskEq pred 0) (chan t 0)
  let dice_liver := dice_single (maskEq pred 1) (chan t 1)
  let dice_bladder := dice_single (maskEq pred 2) (chan t 2)
  let dice_lungs := dice_single (maskEq pred 3) (chan t 3)
  let dice_kidneys := dice_single (maskEq pred 4) (chan t 4)
  let dice_bones := dice_single (maskEq pred 5) (chan t 5)
  let background_w := chanSum t 0
  let liver_w := chanSum t 1
  let bladder_w := chanSum t 2
  let lungs_w := chanSum t 3
  let kidneys_w := chanSum t 4
  let bones_w := chanSum t 5
  ({ aggregate := (liver_w * dice_liver + bladder_w * dice_bladder + lungs_w * dice_lungs +
        kidneys_w * dice_kidneys + bones_w * dice_bones + 1) /
        (liver_w + bladder_w + lungs_w + kidneys_w + bones_w + 1),
     liver := dice_liver * liver_w,
     bladder := dice_bladder * bladder_w,
     lungs := dice_lungs * lungs_w,
     kidneys := dice_kidneys * kidneys_w,
     bones := dice_bones * bones_w },
   { n_liver := st.n_liver + liver_w,
     n_bladder := st.n_bladder + bladder_w,
     n_lungs := st.n_lungs + lungs_w,
     n_kidneys := st.n_kidneys + kidneys_w,
     n_bones := st.n_bones + bones_w })

/-- Floating-point division with finite operands: `none` stands for the
IEEE non-finite result (NaN or ±Inf) produced when the denominator is 0. -/
def qdiv? (a b : ℚ) : Option ℚ :=
  if b = 0 then none else some (a / b)

/-- Addition of possibly non-finite values: a non-finite operand makes the
result non-finite. -/
def oadd : Option ℚ → Option ℚ → Option ℚ
  | some a, some b => some (a + b)
  | _, _ => none

/-- Division of a possibly non-finite numerator by a finite denominator. -/
def odiv : Option ℚ → ℚ → Option ℚ
  | some a, b => qdiv? a b
  | none, _ => none

/-- Rational square root standing in for the real square root taken by
`np.std`: exact on perfect-square rationals (every variance evaluated
concretely in this development is a perfect square), some rational
approximation elsewhere. -/
def sqrtQ (q : ℚ) : ℚ :=
  (Nat.sqrt q.num.toNat : ℚ) / (Nat.sqrt q.den : ℚ)

/-- `np.mean` of a Python list of floats; NaN (`none`) on the empty list. -/
def npMean (xs : List ℚ) : Option ℚ :=
  qdiv? xs.sum xs.length

/-- `np.std` of a Python list of floats: the population standard deviation
(square root of the mean squared deviation); NaN (`none`) on the empty
list. -/
def npStd (xs : List ℚ) : Option ℚ :=
  (npMean xs).map fun m => sqrtQ (((xs.map fun x => (x - m) ^ 2).sum) / xs.length)

/-- Population standard deviation of a nonempty list (the value `np.std`
returns on it), with `sqrtQ` as the square root. -/
def popStd (xs : List ℚ) : ℚ :=
  sqrtQ (((xs.map fun x => (x - xs.sum / xs.length) ^ 2).sum) / xs.length)

/-- The local state built up by the loop in `evaluate_results`: the list
`dices`, the running scalar `dice`, the five per-organ contribution lists,
and the process-wide accumulators. -/
structure LoopState where
  dices : List ℚ
  dice : ℚ
  liverL : List ℚ
  bladderL : List ℚ
  lungsL : List ℚ
  kidneysL : List ℚ
  bonesL : List ℚ
  acc : Accum

/-- The loop state at entry of `evaluate_results`: empty lists, `dice = 0`,
accumulators as inherited from the process. -/
def initLS (st : Accum) : LoopState :=
  ⟨[], 0, [], [], [], [], [], st⟩

/-- The loop `for i in range(len(list_pred))` of `evaluate_results`.
Reading `list_true[i]` past the end raises `IndexError`, modelled as
`Except.error` carrying the accumulators as already mutated by the
processed prefix. -/
def evalLoop {H W : Nat} :
    List (Tensor H W) → List (Tensor H W) → LoopState → Except Accum LoopState
  | [], _, s => .ok s
  | _ :: _, [], s => .error s.acc
  | p :: lp, t :: lt, s =>
    let pr := prepare_prediction p
    let r := dice_total pr t s.acc
    evalLoop lp lt
      { dices := s.dices ++ [r.1.aggregate],
        dice := s.dice + r.1.aggregate,
        liverL := s.liverL ++ [r.1.liver],
        bladderL := s.bladderL ++ [r.1.bladder],
        lungsL := s.lungsL ++ [r.1.lungs],
        kidneysL := s.kidneysL ++ [r.1.kidneys],
        bonesL := s.bonesL ++ [r.1.bones],
        acc := r.2 }

/-- The statistics printed by `evaluate_results`, before the `%.2f * 100`
percentage formatting: each field holds the raw value whose hundredfold is
printed, `none` meaning a non-finite (NaN/Inf) value. -/
structure Report where
  mean_slices : Option ℚ
  std_slices : Option ℚ
  wmean_organs : Option ℚ
  std_organs : Option ℚ
  liver_mean : Option ℚ
  liver_std : Option ℚ
  bladder_mean : Option ℚ
  bladder_std : Option ℚ
  lungs_mean : Option ℚ
  lungs_std : Option ℚ
  kidneys_mean : Option ℚ
  kidneys_std : Option ℚ
  bones_mean : Option ℚ
  bones_std : Option ℚ

/-- The report computed from the final loop state, transcribing the print
statements of `evaluate_results`. -/
def mkReport (s : LoopState) : Report :=
  let nsum : ℚ := s.acc.n_liver + s.acc.n_bladder + s.acc.n_lungs +
    s.acc.n_kidneys + s.acc.n_bones
  { mean_slices := npMean s.dices,
    std_slices := npStd s.dices,
    wmean_organs := qdiv? (s.liverL.sum + s.bladderL.sum + s.lungsL.sum +
      s.kidneysL.sum + s.bonesL.sum) nsum,
    std_organs := odiv (oadd (oadd (oadd (oadd (npStd s.liverL) (npStd s.bladderL))
      (npStd s.lungsL)) (npStd s.kidneysL)) (npStd s.bonesL)) nsum,
    liver_mean := qdiv? s.liverL.sum s.acc.n_liver,
    liver_std := odiv (npStd s.liverL) s.acc.n_liver,
    bladder_mean := qdiv? s.bladderL.sum s.acc.n_bladder,
    bladder_std := odiv (npStd s.bladderL) s.acc.n_bladder,
    lungs_mean := qdiv? s.lungsL.sum s.acc.n_lungs,
    lungs_std := odiv (npStd s.lungsL) s.acc.n_lungs,
    kidneys_mean := qdiv? s.kidneysL.sum s.acc.n_kidneys,
    kidneys_std := odiv (npStd s.kidneysL) s.acc.n_kidneys,
    bones_mean := qdiv? s.bonesL.sum s.acc.n_bones,
    bones_std := odiv (npStd s.bonesL) s.acc.n_bones }

/-- `evaluate_results(list_pred, list_true)` with the process accumulators
`st` at entry: runs the loop, then computes and prints the report. Result:
the report and the accumulators at exit, or the `IndexError` state. -/
def evaluate_results {H W : Nat} (list_pred list_true : List (Tensor H W))
    (st : Accum) : Except Accum (Report × Accum) :=
  match evalLoop list_pred list_true (initLS st) with
  | .error a => .error a
  | .ok s => .ok (mkReport s, s.acc)

/-! ## Spec-side sample-level quantities -/

/-- The Dice score of class `k` for one sample: prediction decoded by
argmax, compared against ground-truth channel `k`. -/
def organDice {H W : Nat} (p t : Tensor H W) (k : Fin 6) : ℚ :=
  dice_single (maskEq (prepare_prediction p) k.val) (chan t k)

/-- The result tuple of `dice_total` for one sample (it does not depend on
the accumulator state). -/
def sampleRes {H W : Nat} (p t : Tensor H W) : DiceTotalResult :=
  (dice_total (prepare_prediction p) t Accum.zero).1

/-- The per-organ weighted contributions `dice_k * weight_k` of the
samples of a dataset, organ channel `k`. -/
def contribList {H W : Nat} (lp lt : List (Tensor H W)) (k : Fin 6) : List ℚ :=
  (lp.zip lt).map fun pt => organDice pt.1 pt.2 k * chanSum pt.2 k

/-- The total ground-truth pixel weight of organ channel `k` over the
samples of a dataset. -/
def weightSum {H W : Nat} (lp lt : List (Tensor H W)) (k : Fin 6) : ℚ :=
  ((lp.zip lt).map fun pt => chanSum pt.2 k).sum

/-- The accumulators after processing the zipped samples starting from
state `a`. -/
def accAfter {H W : Nat} (lp lt : List (Tensor H W)) (a : Accum) : Accum :=
  { n_liver := a.n_liver + weightSum lp lt 1,
    n_bladder := a.n_bladder + weightSum lp lt 2,
    n_lungs := a.n_lungs + weightSum lp lt 3,
    n_kidneys := a.n_kidneys + weightSum lp lt 4,
    n_bones := a.n_bones + weightSum lp lt 5 }

/-- The loop state after processing the zipped samples starting from
state `s`. -/
def finalLS {H W : Nat} (lp lt : List (Tensor H W)) (s : LoopState) : LoopState :=
  { dices := s.dices ++ (lp.zip lt).map fun pt => (sampleRes pt.1 pt.2).aggregate,
    dice := s.dice + ((lp.zip lt).map fun pt => (sampleRes pt.1 pt.2).aggregate).sum,
    liverL := s.liverL ++ (lp.zip lt).map fun pt => (sampleRes pt.1 pt.2).liver,
    bladderL := s.bladderL ++ (lp.zip lt).map fun pt => (sampleRes pt.1 pt.2).bladder,
    lungsL := s.lungsL ++ (lp.zip lt).map fun pt => (sampleRes pt.1 pt.2).lungs,
    kidneysL := s.kidneysL ++ (lp.zip lt).map fun pt => (sampleRes pt.1 pt.2).kidneys,
    bonesL := s.bonesL ++ (lp.zip lt).map fun pt => (sampleRes pt.1 pt.2).bones,
    acc := accAfter lp lt s.acc }

/-- All-background one-hot tensor: channel 0 is 1 at every pixel. -/
def bgT (H W : Nat) : Tensor H W := fun _ _ k => if k = 0 then 1 else 0

/-- All-liver one-hot tensor: channel 1 is 1 at every pixel. -/
def liverT (H W : Nat) : Tensor H W := fun _ _ k => if k = 1 then 1 else 0

theorem dice_total_fst {H W : Nat} (m : Mask H W) (t : Tensor H W) (st : Accum) :
    (dice_total m t st).1 = (dice_total m t Accum.zero).1 := rfl

theorem dice_total_snd {H W : Nat} (m : Mask H W) (t : Tensor H W) (st : Accum) :
    (dice_total m t st).2 =
      ⟨st.n_liver + chanSum t 1, st.n_bladder + chanSum t 2, st.n_lungs + chanSum t 3,
       st.n_kidneys + chanSum t 4, st.n_bones + chanSum t 5⟩ := rfl

theorem finalLS_nil {H W : Nat} (lt : List (Tensor H W)) (s : LoopState) :
    finalLS ([] : List (Tensor H W)) lt s = s := by
  cases s with
  | mk dices dice liverL bladderL lungsL kidneysL bonesL acc =>
    cases acc
    simp [finalLS, accAfter, weightSum]

theorem finalLS_cons {H W : Nat} (p t : Tensor H W) (lp lt : List (Tensor H W))
    (s : LoopState) :
    finalLS (p :: lp) (t :: lt) s =
      finalLS lp lt
        { dices := s.dices ++ [(sampleRes p t).aggregate],
          dice := s.dice + (sampleRes p t).aggregate,
          liverL := s.liverL ++ [(sampleRes p t).liver],
          bladderL := s.bladderL ++ [(sampleRes p t).bladder],
          lungsL := s.lungsL ++ [(sampleRes p t).lungs],
          kidneysL := s.kidneysL ++ [(sampleRes p t).kidneys],
          bonesL := s.bonesL ++ [(sampleRes p t).bones],
          acc := ⟨s.acc.n_liver + chanSum t 1, s.acc.n_bladder + chanSum t 2,
                  s.acc.n_lungs + chanSum t 3, s.acc.n_kidneys + chanSum t 4,
                  s.acc.n_bones + chanSum t 5⟩ } := by
  simp only [finalLS, accAfter, weightSum, List.zip_cons_cons, List.map_cons,
    List.sum_cons, List.append_assoc, List.singleton_append, LoopState.mk.injEq,
    Accum.mk.injEq]
  refine ⟨trivial, by ring, trivial, trivial, trivial, trivial, trivial,
    by ring, by ring, by ring, by ring, by ring⟩

/-- The loop of `evaluate_results` terminates normally when the
predictions do not outnumber the ground truths, and its final state is
the closed form `finalLS`. -/
theorem evalLoop_eq_ok {H W : Nat} :
    ∀ (lp lt : List (Tensor H W)) (s : LoopState), lp.length ≤ lt.length →
      evalLoop lp lt s = Except.ok (finalLS lp lt s) := by
  intro lp
  induction lp with
  | nil => intro lt s _; simp [evalLoop, finalLS_nil]
  | cons p lp ih =>
    intro lt s h
    cases lt with
    | nil => simp at h
    | cons t lt =>
      rw [finalLS_cons]
      simp only [evalLoop]
      rw [← ih lt _ (by simpa using h)]
      rfl

/-- The loop of `evaluate_results` raises `IndexError` when the
predictions outnumber the ground truths, after having processed (and
accumulated the weights of) the common prefix. -/
theorem evalLoop_eq_error {H W : Nat} :
    ∀ (lp lt : List (Tensor H W)) (s : LoopState), lt.length < lp.length →
      evalLoop lp lt s = Except.error (accAfter lp lt s.acc) := by
  intro lp
  induction lp with
  | nil => intro lt s h; simp at h
  | cons p lp ih =>
    intro lt s h
    cases lt with
    | nil =>
      cases hs : s.acc
      simp [evalLoop, accAfter, weightSum, ← hs]
    | cons t lt =>
      simp only [evalLoop]
      rw [ih lt _ (by simpa using h)]
      congr 1
      simp only [accAfter, weightSum, List.zip_cons_cons, List.map_cons, List.sum_cons,
        Accum.mk.injEq, dice_total_snd]
      refine ⟨by ring, by ring, by ring, by ring, by ring⟩

theorem argmax6_unfold (v : Fin 6 → ℚ) :
    argmax6 v = amStep v (amStep v (amStep v (amStep v (amStep v 0 1) 2) 3) 4) 5 := by
  simp [argmax6, List.finRange, List.foldl, amStep, lt_self_iff_false]

set_option maxHeartbeats 1600000 in
/-- `argmax6` returns an index of maximal value, and every strictly earlier
index has a strictly smaller value (first-occurrence tie-breaking). -/
theorem argmax6_spec (v : Fin 6 → ℚ) :
    (∀ c, v c ≤ v (argmax6 v)) ∧
      (∀ c : Fin 6, c.val < (argmax6 v).val → v c < v (argmax6 v)) := by
  rw [argmax6_unfold]
  unfold amStep
  split_ifs <;>
    refine ⟨fun c => ?_, fun c hc => ?_⟩ <;>
      fin_cases c <;>
        first
        | exact absurd hc (by decide)
        | (simp_all <;> linarith)

theorem sqrtQ_sq (n : Nat) : sqrtQ ((n : ℚ) * n) = n := by
  have hnum : ((n : ℚ) * n).num = ((n * n : ℕ) : Int) := by
    rw [← Nat.cast_mul]; exact Rat.num_natCast _
  have hden : ((n : ℚ) * n).den = 1 := by
    rw [← Nat.cast_mul]; exact Rat.den_natCast _
  rw [sqrtQ, hnum, hden, Int.toNat_natCast, Nat.sqrt_eq,
    show Nat.sqrt 1 = 1 from Nat.sqrt_eq 1, Nat.cast_one, div_one]

theorem sqrtQ_four : sqrtQ 4 = 2 := by
  rw [show (4 : ℚ) = ((2 : ℕ) : ℚ) * ((2 : ℕ) : ℚ) by norm_num, sqrtQ_sq]
  norm_num

theorem sqrtQ_zero : sqrtQ 0 = 0 := by
  rw [show (0 : ℚ) = ((0 : ℕ) : ℚ) * ((0 : ℕ) : ℚ) by norm_num, sqrtQ_sq]
  norm_num

/-- On a nonempty list, `np.std` is finite and equals the population
standard deviation `popStd`. -/
theorem npStd_ne_nil (xs : List ℚ) (h : xs ≠ []) : npStd xs = some (popStd xs) := by
  have h0 : xs.length ≠ 0 := fun hz => h (List.length_eq_zero.mp hz)
  have hlen : ((xs.length : ℚ)) ≠ 0 := Nat.cast_ne_zero.mpr h0
  simp [npStd, npMean, qdiv?, popStd, hlen]

theorem odiv_zero (o : Option ℚ) : odiv o 0 = none := by
  cases o <;> simp [odiv, qdiv?]

/-! ## Claims -/

/-- C7: `prepare_prediction` is an argmax decode: at every pixel the
output is the index of the maximum channel value, a tie between equal
maximal channels resolving to the lowest class index (every strictly
earlier index has a strictly smaller value), and the output value lies in
the 8-bit unsigned integer domain (it is below 6, hence below 256). -/
theorem C7_prepare_prediction_argmax {H W : Nat} (p : Tensor H W) (i : Fin H) (j : Fin W) :
    prepare_prediction p i j < 256 ∧
    ∃ k : Fin 6, prepare_prediction p i j = k.val ∧
      (∀ c : Fin 6, p i j c ≤ p i j k) ∧
      (∀ c : Fin 6, c.val < k.val → p i j c < p i j k) :=
  ⟨lt_trans (argmax6 (p i j)).isLt (by norm_num),
   argmax6 (p i j), rfl, (argmax6_spec (p i j)).1, (argmax6_spec (p i j)).2⟩

/-- C2: `dice_single` returns `(2·|p∩t| + 1) / (|p| + |t| + 1)`; on two
all-zero masks it returns exactly 1, and on two identical 0/1 masks it
returns exactly 1. -/
theorem C2_dice_single_formula {H W : Nat} (p t : Fin H → Fin W → ℚ) :
    dice_single p t =
      (2 * (∑ i, ∑ j, p i j * t i j) + 1) /
        ((∑ i, ∑ j, p i j) + (∑ i, ∑ j, t i j) + 1) ∧
    ((∀ i j, p i j = 0) → (∀ i j, t i j = 0) → dice_single p t = 1) ∧
    ((∀ i j, p i j = t i j) → (∀ i j, p i j = 0 ∨ p i j = 1) → dice_single p t = 1) := by
  refine ⟨?_, ?_, ?_⟩
  · simp only [dice_single, Finset.sum_add_distrib]
  · intro hp ht
    simp [dice_single, hp, ht]
  · intro hpt hbin
    have hI : (∑ i, ∑ j, p i j * t i j) = ∑ i, ∑ j, p i j :=
      Finset.sum_congr rfl fun i _ => Finset.sum_congr rfl fun j _ => by
        rcases hbin i j with h0 | h1
        · rw [← hpt i j, h0]; ring
        · rw [← hpt i j, h1]; ring
    have hT : (∑ i, ∑ j, t i j) = ∑ i, ∑ j, p i j :=
      Finset.sum_congr rfl fun i _ => Finset.sum_congr rfl fun j _ => (hpt i j).symm
    have hS : (0 : ℚ) ≤ ∑ i, ∑ j, p i j :=
      Finset.sum_nonneg fun i _ => Finset.sum_nonneg fun j _ => by
        rcases hbin i j with h | h <;> simp [h]
    simp only [dice_single, Finset.sum_add_distrib, hI, hT]
    rw [show 2 * (∑ i, ∑ j, p i j) + 1 = (∑ i, ∑ j, p i j) + (∑ i, ∑ j, p i j) + 1 by ring]
    exact div_self (by linarith)

/-- Witness for C2 at concrete inputs: two identical all-ones 1×1 masks,
and two all-zero 1×1 masks, both scoring exactly 1. -/
theorem C2_dice_single_formula_witness :
    dice_single (fun _ _ => (1 : ℚ) : Fin 1 → Fin 1 → ℚ) (fun _ _ => 1) = 1 ∧
    dice_single (fun _ _ => (0 : ℚ) : Fin 1 → Fin 1 → ℚ) (fun _ _ => 0) = 1 :=
  ⟨(C2_dice_single_formula _ _).2.2 (fun _ _ => rfl) (fun _ _ => Or.inr rfl),
   (C2_dice_single_formula _ _).2.1 (fun _ _ => rfl) (fun _ _ => rfl)⟩

/-- C1: `dice_total` returns as first component the weighted per-sample
Dice `(Σ_k weight_k · dice_k + 1) / (Σ_k weight_k + 1)` over the five
non-background classes (weights being ground-truth pixel counts), the
five `dice_k · weight_k` products, and adds each organ's pixel weight to
the corresponding process-wide accumulator. -/
theorem C1_dice_total {H W : Nat} (pred : Mask H W) (t : Tensor H W) (st : Accum) :
    (dice_total pred t st).1.aggregate =
      ((∑ k : Fin 5, chanSum t k.succ *
          dice_single (maskEq pred k.succ.val) (chan t k.succ)) + 1) /
        ((∑ k : Fin 5, chanSum t k.succ) + 1) ∧
    (dice_total pred t st).1.liver = dice_single (maskEq pred 1) (chan t 1) * chanSum t 1 ∧
    (dice_total pred t st).1.bladder = dice_single (maskEq pred 2) (chan t 2) * chanSum t 2 ∧
    (dice_total pred t st).1.lungs = dice_single (maskEq pred 3) (chan t 3) * chanSum t 3 ∧
    (dice_total pred t st).1.kidneys = dice_single (maskEq pred 4) (chan t 4) * chanSum t 4 ∧
    (dice_total pred t st).1.bones = dice_single (maskEq pred 5) (chan t 5) * chanSum t 5 ∧
    (dice_total pred t st).2 =
      ⟨st.n_liver + chanSum t 1, st.n_bladder + chanSum t 2, st.n_lungs + chanSum t 3,
       st.n_kidneys + chanSum t 4, st.n_bones + chanSum t 5⟩ := by
  refine ⟨?_, rfl, rfl, rfl, rfl, rfl, rfl⟩
  show (chanSum t 1 * dice_single (maskEq pred 1) (chan t 1) +
      chanSum t 2 * dice_single (maskEq pred 2) (chan t 2) +
      chanSum t 3 * dice_single (maskEq pred 3) (chan t 3) +
      chanSum t 4 * dice_single (maskEq pred 4) (chan t 4) +
      chanSum t 5 * dice_single (maskEq pred 5) (chan t 5) + 1) /
      (chanSum t 1 + chanSum t 2 + chanSum t 3 + chanSum t 4 + chanSum t 5 + 1) = _
  rw [Fin.sum_univ_five, Fin.sum_univ_five]
  rfl

/-- C9: a sample whose ground truth has all five organ channels all-zero
gets per-sample weighted Dice exactly 1 regardless of the prediction
(all weights 0, so the smoothed quotient is 1/1), and processing it
appends a perfect score 1 to the `dices` list feeding `Mean on slices`. -/
theorem C9_empty_truth_perfect {H W : Nat} (p t : Tensor H W) (st : Accum)
    (h : ∀ (i : Fin H) (j : Fin W) (k : Fin 6), k ≠ 0 → t i j k = 0) :
    (dice_total (prepare_prediction p) t st).1.aggregate = 1 ∧
    ∀ s : LoopState, ∃ s', evalLoop [p] [t] s = Except.ok s' ∧
      s'.dices = s.dices ++ [1] := by
  have hw : ∀ k : Fin 6, k ≠ 0 → chanSum t k = 0 := by
    intro k hk
    exact Finset.sum_eq_zero fun i _ => Finset.sum_eq_zero fun j _ => h i j k hk
  have hagg : ∀ st' : Accum,
      (dice_total (prepare_prediction p) t st').1.aggregate = 1 := by
    intro st'
    simp only [dice_total]
    rw [hw 1 (by decide), hw 2 (by decide), hw 3 (by decide), hw 4 (by decide),
      hw 5 (by decide)]
    norm_num
  refine ⟨hagg st, fun s => ?_⟩
  refine ⟨{ dices := s.dices ++ [(dice_total (prepare_prediction p) t s.acc).1.aggregate],
            dice := s.dice + (dice_total (prepare_prediction p) t s.acc).1.aggregate,
            liverL := s.liverL ++ [(dice_total (prepare_prediction p) t s.acc).1.liver],
            bladderL := s.bladderL ++ [(dice_total (prepare_prediction p) t s.acc).1.bladder],
            lungsL := s.lungsL ++ [(dice_total (prepare_prediction p) t s.acc).1.lungs],
            kidneysL := s.kidneysL ++ [(dice_total (prepare_prediction p) t s.acc).1.kidneys],
            bonesL := s.bonesL ++ [(dice_total (prepare_prediction p) t s.acc).1.bones],
            acc := (dice_total (prepare_prediction p) t s.acc).2 }, rfl, ?_⟩
  simp only [hagg s.acc]

/-- Witness for C9: a 1×1 all-background ground truth, predicted as
liver; the per-sample weighted Dice is still exactly 1. -/
theorem C9_empty_truth_perfect_witness :
    (∀ (i : Fin 1) (j : Fin 1) (k : Fin 6), k ≠ 0 → bgT 1 1 i j k = 0) ∧
    ((dice_total (prepare_prediction (liverT 1 1)) (bgT 1 1) Accum.zero).1.aggregate = 1 ∧
      ∀ s : LoopState, ∃ s', evalLoop [liverT 1 1] [bgT 1 1] s = Except.ok s' ∧
        s'.dices = s.dices ++ [1]) :=
  ⟨fun _ _ k hk => by simp [bgT, hk],
   C9_empty_truth_perfect (liverT 1 1) (bgT 1 1) Accum.zero
     (fun _ _ k hk => by simp [bgT, hk])⟩

theorem contrib_map_1 {H W : Nat} (lp lt : List (Tensor H W)) :
    ((lp.zip lt).map fun pt => (sampleRes pt.1 pt.2).liver) = contribList lp lt 1 := rfl

theorem contrib_map_2 {H W : Nat} (lp lt : List (Tensor H W)) :
    ((lp.zip lt).map fun pt => (sampleRes pt.1 pt.2).bladder) = contribList lp lt 2 := rfl

theorem contrib_map_3 {H W : Nat} (lp lt : List (Tensor H W)) :
    ((lp.zip lt).map fun pt => (sampleRes pt.1 pt.2).lungs) = contribList lp lt 3 := rfl

theorem contrib_map_4 {H W : Nat} (lp lt : List (Tensor H W)) :
    ((lp.zip lt).map fun pt => (sampleRes pt.1 pt.2).kidneys) = contribList lp lt 4 := rfl

theorem contrib_map_5 {H W : Nat} (lp lt : List (Tensor H W)) :
    ((lp.zip lt).map fun pt => (sampleRes pt.1 pt.2).bones) = contribList lp lt 5 := rfl

/-- C3: with the accumulators starting at zero and equally many
predictions and ground truths, the reported dataset-wide weighted mean
organ Dice is exactly `Σ (organ weight × organ dice) / Σ (organ weight)`,
the sums running over all samples and all five organs (the printed number
is this value times 100). -/
theorem C3_weighted_mean_organs {H W : Nat} (lp lt : List (Tensor H W))
    (hlen : lp.length = lt.length)
    (hW : (∑ k : Fin 5, weightSum lp lt k.succ) ≠ 0) :
    ∃ r a, evaluate_results lp lt Accum.zero = Except.ok (r, a) ∧
      r.wmean_organs = some ((∑ k : Fin 5, (contribList lp lt k.succ).sum) /
        (∑ k : Fin 5, weightSum lp lt k.succ)) := by
  have hok := evalLoop_eq_ok lp lt (initLS Accum.zero) (le_of_eq hlen)
  refine ⟨mkReport (finalLS lp lt (initLS Accum.zero)),
    (finalLS lp lt (initLS Accum.zero)).acc, by simp only [evaluate_results, hok], ?_⟩
  have hW' : weightSum lp lt 1 + weightSum lp lt 2 + weightSum lp lt 3 +
      weightSum lp lt 4 + weightSum lp lt 5 ≠ 0 := by
    rw [Fin.sum_univ_five] at hW; exact hW
  simp only [mkReport, finalLS, initLS, accAfter, Accum.zero, List.nil_append,
    contrib_map_1, contrib_map_2, contrib_map_3, contrib_map_4, contrib_map_5, zero_add]
  rw [Fin.sum_univ_five, Fin.sum_univ_five]
  simp only [qdiv?, if_neg hW']
  rfl

theorem zip_take_self {α : Type} : ∀ (lp lt : List α), lp.zip (lt.take lp.length) = lp.zip lt
  | [], _ => rfl
  | _ :: _, [] => rfl
  | p :: lp, t :: lt => by
    simp only [List.length_cons, List.take_succ_cons, List.zip_cons_cons, zip_take_self lp lt]

theorem finalLS_take {H W : Nat} (lp lt : List (Tensor H W)) (s : LoopState) :
    finalLS lp (lt.take lp.length) s = finalLS lp lt s := by
  simp only [finalLS, accAfter, weightSum, zip_take_self]

/-- C10: `evaluate_results` reads only the first `len(list_pred)` entries
of `list_true`: when the ground truths outnumber the predictions, no
error is raised and the result is identical to the run on the truncated
ground-truth list — the extra entries affect nothing. -/
theorem C10_extra_truths_ignored {H W : Nat} (lp lt : List (Tensor H W)) (st : Accum)
    (h : lp.length ≤ lt.length) :
    evaluate_results lp lt st = evaluate_results lp (lt.take lp.length) st ∧
    ∃ r, evaluate_results lp lt st = Except.ok r := by
  have h2 : lp.length ≤ (lt.take lp.length).length := by
    simp [List.length_take, h]
  constructor
  · simp only [evaluate_results, evalLoop_eq_ok lp lt _ h,
      evalLoop_eq_ok lp (lt.take lp.length) _ h2, finalLS_take]
  · exact ⟨(mkReport (finalLS lp lt (initLS st)), (finalLS lp lt (initLS st)).acc),
      by simp only [evaluate_results, evalLoop_eq_ok lp lt _ h]⟩

/-- Witness for C10: one prediction, two ground truths. -/
theorem C10_extra_truths_ignored_witness :
    ([bgT 1 1].length ≤ [bgT 1 1, bgT 1 1].length) ∧
    (evaluate_results [bgT 1 1] [bgT 1 1, bgT 1 1] Accum.zero =
        evaluate_results [bgT 1 1] ([bgT 1 1, bgT 1 1].take [bgT 1 1].length) Accum.zero ∧
      ∃ r, evaluate_results [bgT 1 1] [bgT 1 1, bgT 1 1] Accum.zero = Except.ok r) :=
  ⟨by decide, C10_extra_truths_ignored _ _ _ (by decide)⟩

/-- C5 (amended): `evaluate_results` performs no length check of its own.
With at least as many ground truths as predictions it completes normally
(no error, extra ground truths ignored); with more predictions than
ground truths it fails — not with a length-mismatch error, but with an
index-out-of-range error when reading the missing ground truth, and only
after the common prefix has been processed and its organ pixel weights
accumulated into the process-wide state. (The `assert` on equal lengths
is in the caller `evaluate.main`, before `evaluate_results` runs.) -/
theorem C5_no_length_check {H W : Nat} (lp lt : List (Tensor H W)) (st : Accum) :
    (lp.length ≤ lt.length → ∃ r, evaluate_results lp lt st = Except.ok r) ∧
    (lt.length < lp.length →
      evaluate_results lp lt st = Except.error (accAfter lp lt st)) := by
  constructor
  · intro h
    exact ⟨(mkReport (finalLS lp lt (initLS st)), (finalLS lp lt (initLS st)).acc),
      by simp only [evaluate_results, evalLoop_eq_ok lp lt _ h]⟩
  · intro h
    simp only [evaluate_results, evalLoop_eq_error lp lt (initLS st) h]
    rfl

/-- Witness for C5 (amended), both branches at concrete inputs. -/
theorem C5_no_length_check_witness :
    (∃ r, evaluate_results [bgT 1 1] [bgT 1 1, bgT 1 1] Accum.zero = Except.ok r) ∧
    evaluate_results [bgT 1 1, bgT 1 1] [bgT 1 1] Accum.zero =
      Except.error (accAfter [bgT 1 1, bgT 1 1] [bgT 1 1] Accum.zero) :=
  ⟨(C5_no_length_check [bgT 1 1] [bgT 1 1, bgT 1 1] Accum.zero).1 (by decide),
   (C5_no_length_check [bgT 1 1, bgT 1 1] [bgT 1 1] Accum.zero).2 (by decide)⟩

/-- C5 counterexample: one prediction against two ground truths — the
lengths differ, yet `evaluate_results` raises no length-mismatch error
and does not halt: it completes normally. -/
theorem C5_counterexample :
    ([liverT 1 1].length ≠ [liverT 1 1, liverT 1 1].length) ∧
    ∃ r, evaluate_results [liverT 1 1] [liverT 1 1, liverT 1 1] Accum.zero =
      Except.ok r :=
  ⟨by decide,
   ⟨(mkReport (finalLS [liverT 1 1] [liverT 1 1, liverT 1 1] (initLS Accum.zero)),
     (finalLS [liverT 1 1] [liverT 1 1, liverT 1 1] (initLS Accum.zero)).acc), by
      simp only [evaluate_results, evalLoop_eq_ok [liverT 1 1] [liverT 1 1, liverT 1 1]
        (initLS Accum.zero) (by decide)]⟩⟩


theorem contribList_ne_nil {H W : Nat} (lp lt : List (Tensor H W))
    (hlen : lp.length = lt.length) (hne : lp ≠ []) (k : Fin 6) :
    contribList lp lt k ≠ [] := by
  intro hcl
  apply hne
  apply List.length_eq_zero.mp
  have hl := congrArg List.length hcl
  simpa [contribList, List.length_zip, ← hlen] using hl

/-- C4: the aggregate weighted "standard deviation" printed by
`evaluate_results` follows the repository's non-standard formula: the sum
over the five organs of the population standard deviation of that organ's
per-sample weighted contributions, divided by the sum of the five
accumulated organ pixel weights — not a statistically standard weighted
standard deviation. -/
theorem C4_std_organs {H W : Nat} (lp lt : List (Tensor H W))
    (hlen : lp.length = lt.length) (hne : lp ≠ [])
    (hW : (∑ k : Fin 5, weightSum lp lt k.succ) ≠ 0) :
    ∃ r a, evaluate_results lp lt Accum.zero = Except.ok (r, a) ∧
      r.std_organs = some ((∑ k : Fin 5, popStd (contribList lp lt k.succ)) /
        (∑ k : Fin 5, weightSum lp lt k.succ)) := by
  have hok := evalLoop_eq_ok lp lt (initLS Accum.zero) (le_of_eq hlen)
  refine ⟨mkReport (finalLS lp lt (initLS Accum.zero)),
    (finalLS lp lt (initLS Accum.zero)).acc, by simp only [evaluate_results, hok], ?_⟩
  have hW' : weightSum lp lt 1 + weightSum lp lt 2 + weightSum lp lt 3 +
      weightSum lp lt 4 + weightSum lp lt 5 ≠ 0 := by
    rw [Fin.sum_univ_five] at hW; exact hW
  have hnn := contribList_ne_nil lp lt hlen hne
  simp only [mkReport, finalLS, initLS, accAfter, Accum.zero, List.nil_append,
    contrib_map_1, contrib_map_2, contrib_map_3, contrib_map_4, contrib_map_5, zero_add,
    npStd_ne_nil _ (hnn 1), npStd_ne_nil _ (hnn 2), npStd_ne_nil _ (hnn 3),
    npStd_ne_nil _ (hnn 4), npStd_ne_nil _ (hnn 5), oadd, odiv, qdiv?, if_neg hW']
  rw [Fin.sum_univ_five, Fin.sum_univ_five]
  rfl

/-- The single-sample all-liver 1×1 dataset has total organ weight 1. -/
theorem wsum_l11 : (∑ k : Fin 5, weightSum [liverT 1 1] [liverT 1 1] k.succ) = 1 := by
  simp [Fin.sum_univ_five, weightSum, chanSum, liverT, Fin.sum_univ_succ]
  decide

/-- Witness for C4: the one-sample dataset of a perfectly predicted 1×1
all-liver mask. -/
theorem C4_std_organs_witness :
    ([liverT 1 1].length = [liverT 1 1].length) ∧
    ([liverT 1 1] ≠ ([] : List (Tensor 1 1))) ∧
    ((∑ k : Fin 5, weightSum [liverT 1 1] [liverT 1 1] k.succ) ≠ 0) ∧
    ∃ r a, evaluate_results [liverT 1 1] [liverT 1 1] Accum.zero = Except.ok (r, a) ∧
      r.std_organs =
        some ((∑ k : Fin 5, popStd (contribList [liverT 1 1] [liverT 1 1] k.succ)) /
          (∑ k : Fin 5, weightSum [liverT 1 1] [liverT 1 1] k.succ)) :=
  ⟨rfl, by simp, by rw [wsum_l11]; norm_num,
   C4_std_organs [liverT 1 1] [liverT 1 1] rfl (by simp) (by rw [wsum_l11]; norm_num)⟩

/-- Witness for C3: the same one-sample all-liver dataset. -/
theorem C3_weighted_mean_organs_witness :
    ([liverT 1 1].length = [liverT 1 1].length) ∧
    ((∑ k : Fin 5, weightSum [liverT 1 1] [liverT 1 1] k.succ) ≠ 0) ∧
    ∃ r a, evaluate_results [liverT 1 1] [liverT 1 1] Accum.zero = Except.ok (r, a) ∧
      r.wmean_organs =
        some ((∑ k : Fin 5, (contribList [liverT 1 1] [liverT 1 1] k.succ).sum) /
          (∑ k : Fin 5, weightSum [liverT 1 1] [liverT 1 1] k.succ)) :=
  ⟨rfl, by rw [wsum_l11]; norm_num,
   C3_weighted_mean_organs [liverT 1 1] [liverT 1 1] rfl (by rw [wsum_l11]; norm_num)⟩

/-- C6: when an organ class has zero accumulated ground-truth pixels
across the dataset, `evaluate_results` does not raise an exception: it
returns normally, and that organ's reported mean and standard deviation
are non-finite (NaN/Inf, modelled `none`); when all five accumulators are
zero the aggregate weighted mean and its std are non-finite as well. The
division by zero is nowhere caught or special-cased, so the non-finite
values propagate to the printed report. -/
theorem C6_absent_organ_nan {H W : Nat} (lp lt : List (Tensor H W))
    (hlen : lp.length = lt.length) :
    ∃ r a, evaluate_results lp lt Accum.zero = Except.ok (r, a) ∧
      (weightSum lp lt 1 = 0 → r.liver_mean = none ∧ r.liver_std = none) ∧
      (weightSum lp lt 2 = 0 → r.bladder_mean = none ∧ r.bladder_std = none) ∧
      (weightSum lp lt 3 = 0 → r.lungs_mean = none ∧ r.lungs_std = none) ∧
      (weightSum lp lt 4 = 0 → r.kidneys_mean = none ∧ r.kidneys_std = none) ∧
      (weightSum lp lt 5 = 0 → r.bones_mean = none ∧ r.bones_std = none) ∧
      ((∀ k : Fin 5, weightSum lp lt k.succ = 0) →
        r.wmean_organs = none ∧ r.std_organs = none) := by
  have hok := evalLoop_eq_ok lp lt (initLS Accum.zero) (le_of_eq hlen)
  refine ⟨mkReport (finalLS lp lt (initLS Accum.zero)),
    (finalLS lp lt (initLS Accum.zero)).acc, by simp only [evaluate_results, hok],
    ?_, ?_, ?_, ?_, ?_, ?_⟩
  · intro h
    constructor
    · simp [mkReport, finalLS, initLS, accAfter, Accum.zero, h, qdiv?]
    · simp [mkReport, finalLS, initLS, accAfter, Accum.zero, h, odiv_zero]
  · intro h
    constructor
    · simp [mkReport, finalLS, initLS, accAfter, Accum.zero, h, qdiv?]
    · simp [mkReport, finalLS, initLS, accAfter, Accum.zero, h, odiv_zero]
  · intro h
    constructor
    · simp [mkReport, finalLS, initLS, accAfter, Accum.zero, h, qdiv?]
    · simp [mkReport, finalLS, initLS, accAfter, Accum.zero, h, odiv_zero]
  · intro h
    constructor
    · simp [mkReport, finalLS, initLS, accAfter, Accum.zero, h, qdiv?]
    · simp [mkReport, finalLS, initLS, accAfter, Accum.zero, h, odiv_zero]
  · intro h
    constructor
    · simp [mkReport, finalLS, initLS, accAfter, Accum.zero, h, qdiv?]
    · simp [mkReport, finalLS, initLS, accAfter, Accum.zero, h, odiv_zero]
  · intro h
    have h1 : weightSum lp lt 1 = 0 := h 0
    have h2 : weightSum lp lt 2 = 0 := h 1
    have h3 : weightSum lp lt 3 = 0 := h 2
    have h4 : weightSum lp lt 4 = 0 := h 3
    have h5 : weightSum lp lt 5 = 0 := h 4
    constructor
    · simp [mkReport, finalLS, initLS, accAfter, Accum.zero, h1, h2, h3, h4, h5, qdiv?]
    · simp [mkReport, finalLS, initLS, accAfter, Accum.zero, h1, h2, h3, h4, h5, odiv_zero]

/-- Each organ weight of the all-background 1×1 dataset is zero. -/
theorem wsum_bg11 (k : Fin 5) : weightSum [bgT 1 1] [bgT 1 1] k.succ = 0 := by
  fin_cases k <;> simp [weightSum, chanSum, bgT, Fin.sum_univ_succ] <;> decide

/-- Witness for C6: a one-sample all-background dataset, in which every
organ is absent. -/
theorem C6_absent_organ_nan_witness :
    ([bgT 1 1].length = [bgT 1 1].length) ∧
    ∃ r a, evaluate_results [bgT 1 1] [bgT 1 1] Accum.zero = Except.ok (r, a) ∧
      (weightSum [bgT 1 1] [bgT 1 1] 1 = 0 → r.liver_mean = none ∧ r.liver_std = none) ∧
      (weightSum [bgT 1 1] [bgT 1 1] 2 = 0 → r.bladder_mean = none ∧ r.bladder_std = none) ∧
      (weightSum [bgT 1 1] [bgT 1 1] 3 = 0 → r.lungs_mean = none ∧ r.lungs_std = none) ∧
      (weightSum [bgT 1 1] [bgT 1 1] 4 = 0 → r.kidneys_mean = none ∧ r.kidneys_std = none) ∧
      (weightSum [bgT 1 1] [bgT 1 1] 5 = 0 → r.bones_mean = none ∧ r.bones_std = none) ∧
      ((∀ k : Fin 5, weightSum [bgT 1 1] [bgT 1 1] k.succ = 0) →
        r.wmean_organs = none ∧ r.std_organs = none) :=
  ⟨rfl, C6_absent_organ_nan [bgT 1 1] [bgT 1 1] rfl⟩


theorem prep_lv22 : ∀ (i j : Fin 2), prepare_prediction (liverT 2 2) i j = 1 := by decide

theorem prep_bg22 : ∀ (i j : Fin 2), prepare_prediction (bgT 2 2) i j = 0 := by decide

theorem sampleRes_lv_agg : (sampleRes (liverT 2 2) (liverT 2 2)).aggregate = 1 := by
  norm_num +decide [sampleRes, dice_total, dice_single, maskEq, chan, chanSum, prep_lv22, liverT,
    Fin.sum_univ_succ]

theorem sampleRes_lv_liver : (sampleRes (liverT 2 2) (liverT 2 2)).liver = 4 := by
  norm_num [sampleRes, dice_total, dice_single, maskEq, chan, chanSum, prep_lv22, liverT,
    Fin.sum_univ_succ]

theorem sampleRes_bg_liver : (sampleRes (bgT 2 2) (bgT 2 2)).liver = 0 := by
  norm_num [sampleRes, dice_total, dice_single, maskEq, chan, chanSum, prep_bg22, bgT,
    Fin.sum_univ_succ]

theorem chanSum_lv22_1 : chanSum (liverT 2 2) 1 = 4 := by
  norm_num [chanSum, liverT, Fin.sum_univ_succ]

theorem chanSum_bg22_1 : chanSum (bgT 2 2) 1 = 0 := by
  norm_num [chanSum, bgT, Fin.sum_univ_succ]

theorem npStd_40 : npStd [(4 : ℚ), 0] = some 2 := by
  norm_num [npStd, npMean, qdiv?]
  exact sqrtQ_four

/-- The full run of the spec's two-sample 2×2 scenario: sample 1 all-liver
perfectly predicted, sample 2 all-background perfectly predicted. The
liver contribution list is [4, 0] and the accumulated liver weight is 4,
so the reported liver mean is 1 and the reported liver std is 1/2. -/
theorem c8_run :
    evaluate_results [liverT 2 2, bgT 2 2] [liverT 2 2, bgT 2 2] Accum.zero =
      Except.ok
        (mkReport (finalLS [liverT 2 2, bgT 2 2] [liverT 2 2, bgT 2 2] (initLS Accum.zero)),
         (finalLS [liverT 2 2, bgT 2 2] [liverT 2 2, bgT 2 2] (initLS Accum.zero)).acc) ∧
    (mkReport (finalLS [liverT 2 2, bgT 2 2] [liverT 2 2, bgT 2 2]
      (initLS Accum.zero))).liver_mean = some 1 ∧
    (mkReport (finalLS [liverT 2 2, bgT 2 2] [liverT 2 2, bgT 2 2]
      (initLS Accum.zero))).liver_std = some (1 / 2) := by
  have hok := evalLoop_eq_ok [liverT 2 2, bgT 2 2] [liverT 2 2, bgT 2 2]
    (initLS Accum.zero) (le_refl _)
  refine ⟨by simp only [evaluate_results, hok], ?_, ?_⟩
  · simp only [mkReport, finalLS, initLS, accAfter, weightSum, Accum.zero,
      List.zip_cons_cons, List.zip_nil_left, List.map_cons, List.map_nil, List.nil_append,
      List.sum_cons, List.sum_nil, sampleRes_lv_liver, sampleRes_bg_liver,
      chanSum_lv22_1, chanSum_bg22_1, qdiv?]
    norm_num
  · simp only [mkReport, finalLS, initLS, accAfter, weightSum, Accum.zero,
      List.zip_cons_cons, List.zip_nil_left, List.map_cons, List.map_nil, List.nil_append,
      List.sum_cons, List.sum_nil, sampleRes_lv_liver, sampleRes_bg_liver,
      chanSum_lv22_1, chanSum_bg22_1]
    rw [npStd_40]
    simp [odiv, qdiv?]
    norm_num


/-- C8 counterexample: on the claim's two-sample 2×2 dataset the reported
liver standard deviation is 1/2 (printed 50.00), not 0 (printed 0.00):
the liver contribution list is [4, 0], whose population standard
deviation 2 is divided by the accumulated liver weight 4. -/
theorem C8_counterexample :
    ∃ r a, evaluate_results [liverT 2 2, bgT 2 2] [liverT 2 2, bgT 2 2] Accum.zero =
        Except.ok (r, a) ∧
      r.liver_std = some (1 / 2) ∧ r.liver_std ≠ some 0 :=
  ⟨_, _, c8_run.1, c8_run.2.2, by rw [c8_run.2.2]; norm_num⟩

/-- C8 (amended): on the spec's two-sample 2×2 dataset (all-liver ground
truth perfectly predicted, then all-background ground truth perfectly
predicted, accumulators starting at zero) the per-sample weighted Dice of
sample 1 is exactly 1 and the reported liver mean is 1 (printed 100.00) —
but the reported liver standard deviation is 1/2 (printed 50.00), not
0.00. -/
theorem C8_two_sample_run :
    (sampleRes (liverT 2 2) (liverT 2 2)).aggregate = 1 ∧
    ∃ r a, evaluate_results [liverT 2 2, bgT 2 2] [liverT 2 2, bgT 2 2] Accum.zero =
        Except.ok (r, a) ∧
      r.liver_mean = some 1 ∧ r.liver_std = some (1 / 2) :=
  ⟨sampleRes_lv_agg, _, _, c8_run.1, c8_run.2.1, c8_run.2.2⟩

end Seneca
